import Mathlib

/-!
Shallow embedding of the GeminiLiveServer relay (src/main.py) and proofs of
the specification's claims about it.

The embedding models the session-management and message-relay logic of
`GeminiSession` and `websocket_endpoint`.  External effects are made
explicit: messages sent to the browser client become values of `OutMsg`,
messages sent to the upstream Gemini session become values of `UpstreamMsg`,
and each point where an awaited external call may raise is driven by a
boolean oracle argument.  A Python exception that escapes a modelled block
is represented by an explicit flag or `Except`; an exception that the
source catches and only logs is represented by the function returning
normally.  Logging itself is not modelled.  Base64 is modelled as canonical
RFC 4648 base64 over byte lists (naturals below 256).
-/

namespace GeminiLive

/-- Fixed input sample rate, `SAMPLE_RATE = 16000` in src/main.py. -/
def SAMPLE_RATE : Nat := 16000

/-- Fixed output sample rate, `OUTPUT_SAMPLE_RATE = 24000` in src/main.py. -/
def OUTPUT_SAMPLE_RATE : Nat := 24000

/-- Character of the base64 alphabet at index `n` (0 ≤ n < 64). -/
def b64Index (n : Nat) : Char :=
  if n < 26 then Char.ofNat (65 + n)
  else if n < 52 then Char.ofNat (97 + (n - 26))
  else if n < 62 then Char.ofNat (48 + (n - 52))
  else if n = 62 then '+'
  else '/'

/-- Base64-encode a list of bytes into the character list of the encoding,
padding with `=` as in `base64.b64encode`. -/
def b64encodeList : List Nat → List Char
  | [] => []
  | [b1] =>
      [b64Index ((b1 % 256) / 4), b64Index (((b1 % 256) % 4) * 16), '=', '=']
  | [b1, b2] =>
      [b64Index ((b1 % 256) / 4),
       b64Index (((b1 % 256) % 4) * 16 + (b2 % 256) / 16),
       b64Index (((b2 % 256) % 16) * 4), '=']
  | b1 :: b2 :: b3 :: rest =>
      [b64Index ((b1 % 256) / 4),
       b64Index (((b1 % 256) % 4) * 16 + (b2 % 256) / 16),
       b64Index (((b2 % 256) % 16) * 4 + (b3 % 256) / 64),
       b64Index ((b3 % 256) % 64)] ++ b64encodeList rest

/-- `base64.b64encode(bytes).decode('utf-8')` as used on outgoing audio. -/
def b64encode (bs : List Nat) : String := String.mk (b64encodeList bs)

/-- Value of a base64 alphabet character, `none` for anything else. -/
def b64Val (c : Char) : Option Nat :=
  if 'A' ≤ c ∧ c ≤ 'Z' then some (c.toNat - 65)
  else if 'a' ≤ c ∧ c ≤ 'z' then some (c.toNat - 97 + 26)
  else if '0' ≤ c ∧ c ≤ '9' then some (c.toNat - 48 + 52)
  else if c = '+' then some 62
  else if c = '/' then some 63
  else none

/-- Decode a canonical base64 character list into bytes; `none` models
`base64.b64decode` raising `binascii.Error`. -/
def b64decodeChars : List Char → Option (List Nat)
  | [] => some []
  | c1 :: c2 :: c3 :: c4 :: rest =>
      match b64Val c1, b64Val c2 with
      | some v1, some v2 =>
          if c3 = '=' then
            if c4 = '=' ∧ rest = [] then
              some [v1 * 4 + v2 / 16]
            else none
          else
            match b64Val c3 with
            | some v3 =>
                if c4 = '=' then
                  if rest = [] then
                    some [v1 * 4 + v2 / 16, (v2 % 16) * 16 + v3 / 4]
                  else none
                else
                  match b64Val c4 with
                  | some v4 =>
                      (b64decodeChars rest).map
                        (fun bs =>
                          (v1 * 4 + v2 / 16) ::
                          ((v2 % 16) * 16 + v3 / 4) ::
                          ((v3 % 4) * 64 + v4) :: bs)
                  | none => none
            | none => none
      | _, _ => none
  | _ => none

/-- `base64.b64decode` on a string payload (canonical base64). -/
def b64decode (s : String) : Option (List Nat) := b64decodeChars s.toList

/-- One transcription object (`input_transcription` / `output_transcription`)
with its `text` field. -/
structure Transcription where
  text : String
deriving DecidableEq, Repr

/-- Upstream `server_content` with the fields src/main.py reads. -/
structure ServerContent where
  input_transcription : Option Transcription
  output_transcription : Option Transcription
  model_turn : Bool
  turn_complete : Bool
  interrupted : Bool
deriving DecidableEq, Repr

/-- One function-call request from a Gemini tool-call event. -/
structure FunctionCall where
  id : String
  name : String
  args : String
deriving DecidableEq, Repr

/-- A tool-call event: a batch of function-call requests. -/
structure ToolCall where
  function_calls : List FunctionCall
deriving DecidableEq, Repr

/-- A `types.FunctionResponse` as built in `handle_tool_call`: the request's
id and name together with the fixed response payload. -/
structure FunctionResponse where
  id : String
  name : String
  result : String
  scheduling : String
deriving DecidableEq, Repr

/-- One event of the upstream response stream, with the fields that
`receive_responses` reads.  `data` and `text` are the SDK convenience
properties; missing values are `none`.  Python truthiness is applied at
each use site (empty bytes and empty strings are falsy). -/
structure ResponseEvent where
  tool_call : Option ToolCall
  data : Option (List Nat)
  text : Option String
  server_content : Option ServerContent
deriving DecidableEq, Repr

/-- Outbound JSON messages sent to the browser client over the WebSocket. -/
inductive OutMsg where
  | connected (message : String)
  | audio_response (data : String)
  | transcription (text : String)
  | ai_transcription (text : String)
  | tool_call (tool : String) (args : String)
  | turn_complete
  | interrupted
  | error (message : String)
deriving DecidableEq, Repr

/-- Messages sent to the upstream Gemini session. -/
inductive UpstreamMsg where
  | realtimeAudio (data : List Nat) (mime : String)
  | endOfTurnSignal
  | textTurn (text : String)
  | toolResponses (rs : List FunctionResponse)
deriving DecidableEq, Repr

/-- The mutable state of one `GeminiSession` object: whether `self.session`
and `self.session_manager` are set, the `is_active` flag, and a count of how
many times the upstream handle's release (`__aexit__`) has been invoked. -/
structure SessState where
  hasSession : Bool
  hasManager : Bool
  is_active : Bool
  releaseCount : Nat
deriving DecidableEq, Repr

/-- State of a freshly constructed `GeminiSession`. -/
def initialSession : SessState :=
  { hasSession := false, hasManager := false, is_active := false, releaseCount := 0 }

/-- `GeminiSession.close` (src/main.py lines 368-376): set `is_active` to
false, then, when a session manager exists, invoke the handle release; a
failure of the release (`releaseFails`) is caught and logged, so `close`
returns normally in every case and never clears `session_manager`. -/
def close (s : SessState) (_releaseFails : Bool) : SessState :=
  let s1 : SessState := { s with is_active := false }
  if s1.hasManager then { s1 with releaseCount := s1.releaseCount + 1 } else s1

/-- `GeminiSession.connect` (lines 213-248): on success (`failWith = none`)
the session and manager are stored, `is_active` becomes true, and the
`connected` acknowledgment is sent to the client; on failure `is_active` is
set false and the exception (carrying its message) is re-raised, modelled by
`Except.error` carrying the post-failure state. -/
def connect (s : SessState) (failWith : Option String) :
    Except (SessState × String) (SessState × List OutMsg) :=
  match failWith with
  | some e => Except.error ({ s with is_active := false }, e)
  | none =>
      Except.ok ({ s with hasSession := true, hasManager := true, is_active := true },
        [OutMsg.connected "Successfully connected to Gemini"])

/-- MIME tag attached to forwarded realtime audio frames. -/
def audioMime : String := "audio/pcm;rate=" ++ toString SAMPLE_RATE

/-- `GeminiSession.send_audio` (lines 250-272): when no session is stored or
the session is inactive, warn and return unchanged; otherwise decode the
base64 payload and forward one realtime PCM frame.  A decode error or a
failing upstream send (`sendFails`) is caught by the handler, which sets
`is_active` to false; nothing is forwarded in that case. -/
def send_audio (s : SessState) (audio_base64 : String) (sendFails : Bool) :
    SessState × List UpstreamMsg :=
  if s.hasSession = false || s.is_active = false then (s, [])
  else
    match b64decode audio_base64 with
    | none => ({ s with is_active := false }, [])
    | some bytes =>
        if sendFails then ({ s with is_active := false }, [])
        else (s, [UpstreamMsg.realtimeAudio bytes audioMime])

/-- `GeminiSession.handle_tool_call` (lines 273-300), failure-free path: one
`tool_call` client notification per request, then one grouped
`send_tool_response` whose entries echo each request's id and name with the
fixed result payload. -/
def handle_tool_call (tc : ToolCall) : List OutMsg × List UpstreamMsg :=
  (tc.function_calls.map (fun fc => OutMsg.tool_call fc.name fc.args),
   [UpstreamMsg.toolResponses
     (tc.function_calls.map (fun fc => FunctionResponse.mk fc.id fc.name "ok" "SILENT"))])

/-- Failure oracle for `handle_tool_call`: no failure, the client
notification for request `k` raises, or the grouped upstream send raises. -/
inductive ToolFail where
  | noFail
  | failClientSend (k : Nat)
  | failGroupSend
deriving DecidableEq, Repr

/-- `GeminiSession.handle_tool_call` with its failure oracle.  The body is
wrapped in try/except, so the function returns normally in every mode: a
client-send failure at request `k` leaves the earlier notifications sent
and suppresses the grouped response; a grouped-send failure leaves all
notifications sent and no grouped response delivered. -/
def handle_tool_call_run (tc : ToolCall) (tf : ToolFail) : List OutMsg × List UpstreamMsg :=
  match tf with
  | ToolFail.noFail => handle_tool_call tc
  | ToolFail.failClientSend k =>
      if k < tc.function_calls.length then
        ((tc.function_calls.take k).map (fun fc => OutMsg.tool_call fc.name fc.args), [])
      else handle_tool_call tc
  | ToolFail.failGroupSend =>
      (tc.function_calls.map (fun fc => OutMsg.tool_call fc.name fc.args), [])

/-- Client messages produced by the tool-call branch of one event. -/
def toolClientMsgs (e : ResponseEvent) (tf : ToolFail) : List OutMsg :=
  match e.tool_call with
  | some tc => (handle_tool_call_run tc tf).1
  | none => []

/-- Upstream messages produced by the tool-call branch of one event. -/
def toolUpMsgs (e : ResponseEvent) (tf : ToolFail) : List UpstreamMsg :=
  match e.tool_call with
  | some tc => (handle_tool_call_run tc tf).2
  | none => []

/-- Client messages of the `response.data` branch (empty bytes are falsy). -/
def audioMsgs (e : ResponseEvent) : List OutMsg :=
  match e.data with
  | some bs => if bs.isEmpty then [] else [OutMsg.audio_response (b64encode bs)]
  | none => []

/-- Client messages of the `response.text` branch (empty string is falsy). -/
def textMsgs (e : ResponseEvent) : List OutMsg :=
  match e.text with
  | some t => if t = "" then [] else [OutMsg.transcription t]
  | none => []

/-- Client messages of the `server_content` branches in source order:
input transcription, output transcription, turn-complete, interrupted. -/
def scMsgs (sc : ServerContent) : List OutMsg :=
  (match sc.input_transcription with
   | some tr => [OutMsg.transcription tr.text]
   | none => []) ++
  (match sc.output_transcription with
   | some tr => [OutMsg.ai_transcription tr.text]
   | none => []) ++
  (if sc.turn_complete then [OutMsg.turn_complete] else []) ++
  (if sc.interrupted then [OutMsg.interrupted] else [])

/-- Body of the `async for response in turn` loop of `receive_responses`
(lines 312-362) for one event: the tool-call, data and text branches run
first; then lines 333 and 340 dereference `response.server_content` without
a presence check, so when it is `none` an `AttributeError` is raised after
those first three branches have already sent their messages — the third
component records whether the event raised. -/
def processEvent (e : ResponseEvent) (tf : ToolFail) :
    List OutMsg × List UpstreamMsg × Bool :=
  match e.server_content with
  | none => (toolClientMsgs e tf ++ audioMsgs e ++ textMsgs e, toolUpMsgs e tf, true)
  | some sc =>
      (toolClientMsgs e tf ++ audioMsgs e ++ textMsgs e ++ scMsgs sc, toolUpMsgs e tf, false)

/-- Consumption of one turn's event stream by `receive_responses`: each
event is processed while `is_active` holds; an event that raises lands in
the except handler (lines 364-366), which sets `is_active` false and ends
the loop, discarding the remaining events. -/
def receiveTurn (s : SessState) : List ResponseEvent → SessState × List OutMsg × List UpstreamMsg
  | [] => (s, [], [])
  | e :: rest =>
      if s.is_active = false then (s, [], [])
      else
        if (processEvent e ToolFail.noFail).2.2 then
          ({ s with is_active := false },
           (processEvent e ToolFail.noFail).1,
           (processEvent e ToolFail.noFail).2.1)
        else
          ((receiveTurn s rest).1,
           (processEvent e ToolFail.noFail).1 ++ (receiveTurn s rest).2.1,
           (processEvent e ToolFail.noFail).2.1 ++ (receiveTurn s rest).2.2)

/-- The `end_of_turn` branch of the inbound loop (lines 418-427): only when
a session object exists is the end-of-speech signal sent; a send failure
(`sendFails`) is caught by the inner try/except and merely logged, so the
state is returned unchanged in every case. -/
def end_of_turn_step (s : SessState) (sendFails : Bool) : SessState × List UpstreamMsg :=
  if s.hasSession then
    if sendFails then (s, []) else (s, [UpstreamMsg.endOfTurnSignal])
  else (s, [])

/-- One decoded inbound client message, with the failure oracles of the
awaited sends attached.  `malformed` stands for a message on which
`json.loads` (or any other processing step) raises; `disconnect` for
`WebSocketDisconnect` during receive; `unknown` for a JSON object whose
`type` matches no branch. -/
inductive InMsg where
  | audio_chunk (data : Option String) (sendFails : Bool)
  | end_of_turn (sendFails : Bool)
  | text_message (text : String) (sendFails : Bool)
  | stop
  | unknown
  | malformed
  | disconnect
deriving DecidableEq, Repr

/-- The inbound `while session.is_active` loop of `websocket_endpoint`
(lines 406-445) over a finite trace of client messages; exhausting the
trace models the client connection ending.  `stop`, disconnect and any
raising message processing break the loop; an `audio_chunk` with a missing
or empty payload is skipped; a `text_message` send failure (or a missing
session object) raises into the per-message except handler and breaks. -/
def inboundLoop (s : SessState) : List InMsg → SessState × List UpstreamMsg
  | [] => (s, [])
  | m :: rest =>
      if s.is_active = false then (s, [])
      else
        match m with
        | InMsg.audio_chunk dataOpt sf =>
            (match dataOpt with
             | some d =>
                 if d = "" then inboundLoop s rest
                 else
                   ((inboundLoop (send_audio s d sf).1 rest).1,
                    (send_audio s d sf).2 ++ (inboundLoop (send_audio s d sf).1 rest).2)
             | none => inboundLoop s rest)
        | InMsg.end_of_turn sf =>
            ((inboundLoop (end_of_turn_step s sf).1 rest).1,
             (end_of_turn_step s sf).2 ++ (inboundLoop (end_of_turn_step s sf).1 rest).2)
        | InMsg.text_message t sf =>
            if t = "" then inboundLoop s rest
            else if s.hasSession = false then (s, [])
            else if sf then (s, [])
            else ((inboundLoop s rest).1,
                  UpstreamMsg.textTurn t :: (inboundLoop s rest).2)
        | InMsg.stop => (s, [])
        | InMsg.unknown => inboundLoop s rest
        | InMsg.malformed => (s, [])
        | InMsg.disconnect => (s, [])

/-- Cleanup actions of the supervisor, in the order performed. -/
inductive CleanupStep where
  | cancelTask
  | closeCall
deriving DecidableEq, Repr

/-- Result of one run of `websocket_endpoint`: final session state, client
messages sent on the supervisor's own path, upstream messages of the
inbound loop, whether the background outbound task was started and
cancelled, and the ordered cleanup trace. -/
structure SupResult where
  finalState : SessState
  clientMsgs : List OutMsg
  upstreamMsgs : List UpstreamMsg
  taskStarted : Bool
  taskCancelled : Bool
  cleanup : List CleanupStep
deriving DecidableEq, Repr

/-- `websocket_endpoint` (lines 389-465): construct a session, `connect`;
on connect failure the outer except sends an `error` message and the
`finally` block runs `close` — the background task was never started.  On
success the `connected` acknowledgment is sent, the outbound task starts,
the inbound loop runs to completion, the task is cancelled and awaited, and
the `finally` block runs `close`.  Every path performs `closeCall` exactly
once, after `cancelTask` whenever the task was started. -/
def websocket_endpoint (connectFail : Option String) (releaseFails : Bool)
    (inbound : List InMsg) : SupResult :=
  match connect initialSession connectFail with
  | Except.error (s1, msg) =>
      { finalState := close s1 releaseFails
        clientMsgs := [OutMsg.error msg]
        upstreamMsgs := []
        taskStarted := false
        taskCancelled := false
        cleanup := [CleanupStep.closeCall] }
  | Except.ok (s1, msgs) =>
      { finalState := close (inboundLoop s1 inbound).1 releaseFails
        clientMsgs := msgs
        upstreamMsgs := (inboundLoop s1 inbound).2
        taskStarted := true
        taskCancelled := true
        cleanup := [CleanupStep.cancelTask, CleanupStep.closeCall] }

/-- Postfix-closed iteration of `send_audio` over a trace of payloads with
their send-failure oracles. -/
def sendAudioSeq (s : SessState) : List (String × Bool) → SessState × List UpstreamMsg
  | [] => (s, [])
  | (p, sf) :: rest =>
      ((sendAudioSeq (send_audio s p sf).1 rest).1,
       (send_audio s p sf).2 ++ (sendAudioSeq (send_audio s p sf).1 rest).2)

/-- One operation a running connection can perform on its session object
after construction. -/
inductive SessOp where
  | opClose (releaseFails : Bool)
  | opSendAudio (payload : String) (sendFails : Bool)
  | opEndOfTurn (sendFails : Bool)
  | opTextTurn (text : String) (sendFails : Bool)
  | opRecvEvent (e : ResponseEvent) (tf : ToolFail)
deriving Repr

/-- Effect of one operation on the session state.  A text-turn send never
touches the session fields (its failure only breaks the inbound loop); a
received event is processed only while active, and deactivates the session
exactly when its processing raises. -/
def stepOp (s : SessState) : SessOp → SessState
  | SessOp.opClose rf => close s rf
  | SessOp.opSendAudio p sf => (send_audio s p sf).1
  | SessOp.opEndOfTurn sf => (end_of_turn_step s sf).1
  | SessOp.opTextTurn _ _ => s
  | SessOp.opRecvEvent e tf =>
      if s.is_active = false then s
      else if (processEvent e tf).2.2 then { s with is_active := false } else s

/-- Run a sequence of session operations from a state. -/
def runOps (s : SessState) : List SessOp → SessState
  | [] => s
  | op :: rest => runOps (stepOp s op) rest

/-- Spec-side description of the tool-call output of one event (§4.3 of the
spec): one `tool_call` notification per request, in batch order. -/
def specToolOut (e : ResponseEvent) : List OutMsg :=
  match e.tool_call with
  | some tc => tc.function_calls.map (fun fc => OutMsg.tool_call fc.name fc.args)
  | none => []

/-- Spec-side description of the audio output of one event. -/
def specAudioOut (e : ResponseEvent) : List OutMsg :=
  match e.data with
  | some bs => if bs.isEmpty then [] else [OutMsg.audio_response (b64encode bs)]
  | none => []

/-- Spec-side description of the plain-text output of one event. -/
def specTextOut (e : ResponseEvent) : List OutMsg :=
  match e.text with
  | some t => if t = "" then [] else [OutMsg.transcription t]
  | none => []

/-- Spec-side description of the input-transcript output of one event. -/
def specInTransOut (e : ResponseEvent) : List OutMsg :=
  match e.server_content with
  | some sc =>
      match sc.input_transcription with
      | some tr => [OutMsg.transcription tr.text]
      | none => []
  | none => []

/-- Spec-side description of the output-transcript output of one event. -/
def specOutTransOut (e : ResponseEvent) : List OutMsg :=
  match e.server_content with
  | some sc =>
      match sc.output_transcription with
      | some tr => [OutMsg.ai_transcription tr.text]
      | none => []
  | none => []

/-- Spec-side description of the turn-complete output of one event. -/
def specTurnCompleteOut (e : ResponseEvent) : List OutMsg :=
  match e.server_content with
  | some sc => if sc.turn_complete then [OutMsg.turn_complete] else []
  | none => []

/-- Spec-side description of the interrupted output of one event. -/
def specInterruptedOut (e : ResponseEvent) : List OutMsg :=
  match e.server_content with
  | some sc => if sc.interrupted then [OutMsg.interrupted] else []
  | none => []

/-- Spec-side ordered concatenation of the per-field outputs of one event:
tool-call, audio, text, input-transcript, output-transcript, turn-complete,
interrupted. -/
def specOrderedMsgs (e : ResponseEvent) : List OutMsg :=
  specToolOut e ++ specAudioOut e ++ specTextOut e ++ specInTransOut e ++
    specOutTransOut e ++ specTurnCompleteOut e ++ specInterruptedOut e

/-- The spec's synthetic event: `output_transcription` and `turn_complete`
both populated, every other field absent. -/
def syntheticEvent : ResponseEvent :=
  { tool_call := none
    data := none
    text := none
    server_content := some
      { input_transcription := none
        output_transcription := some { text := "Hello" }
        model_turn := false
        turn_complete := true
        interrupted := false } }

/-- Session state right after a successful `connect`. -/
def connectedState : SessState :=
  { hasSession := true, hasManager := true, is_active := true, releaseCount := 0 }

example : b64decode "QUJD" = some [65, 66, 67] := by decide
example : b64decode "QQ==" = some [65] := by decide
example : b64decode "QUI=" = some [65, 66] := by decide
example : b64encode [65, 66, 67] = "QUJD" := by decide
example : (processEvent syntheticEvent ToolFail.noFail).1 =
    [OutMsg.ai_transcription "Hello", OutMsg.turn_complete] := by decide

/-! ## Helper lemmas shared by the claim proofs -/

/-- `close` always leaves the session inactive. -/
lemma close_not_active (s : SessState) (rf : Bool) : (close s rf).is_active = false := by
  rcases s with ⟨hs, hm, ia, rc⟩
  cases hm <;> rfl

/-- `close` never touches the `session_manager` field, so a later call still
sees a manager to release. -/
lemma close_hasManager (s : SessState) (rf : Bool) : (close s rf).hasManager = s.hasManager := by
  rcases s with ⟨hs, hm, ia, rc⟩
  cases hm <;> rfl

/-- The `end_of_turn` branch returns the session state unchanged in every
case, failing send included. -/
lemma end_of_turn_step_fst (s : SessState) (sf : Bool) : (end_of_turn_step s sf).1 = s := by
  unfold end_of_turn_step
  split
  · split <;> rfl
  · rfl

/-- With no tool failure, the tool-call branch of an event emits exactly the
spec's per-request notifications. -/
lemma toolClientMsgs_noFail (e : ResponseEvent) :
    toolClientMsgs e ToolFail.noFail = specToolOut e := by
  unfold toolClientMsgs specToolOut handle_tool_call_run handle_tool_call
  cases e.tool_call <;> rfl

/-- The audio branch of an event agrees with its spec-side description. -/
lemma audioMsgs_spec (e : ResponseEvent) : audioMsgs e = specAudioOut e := rfl

/-- The text branch of an event agrees with its spec-side description. -/
lemma textMsgs_spec (e : ResponseEvent) : textMsgs e = specTextOut e := rfl

/-- Every client message the tool-call branch emits is a `tool_call`
notification, whatever the failure mode. -/
lemma toolClientMsgs_shape (e : ResponseEvent) (tf : ToolFail) (x : OutMsg)
    (hx : x ∈ toolClientMsgs e tf) : ∃ n a, x = OutMsg.tool_call n a := by
  unfold toolClientMsgs at hx
  cases htc : e.tool_call with
  | none => rw [htc] at hx; exact absurd hx (List.not_mem_nil x)
  | some tc =>
      rw [htc] at hx
      cases tf with
      | noFail =>
          simp only [handle_tool_call_run, handle_tool_call] at hx
          rw [List.mem_map] at hx
          obtain ⟨fc, _, hfc⟩ := hx
          exact ⟨fc.name, fc.args, hfc.symm⟩
      | failClientSend k =>
          simp only [handle_tool_call_run] at hx
          split at hx
          · rw [List.mem_map] at hx
            obtain ⟨fc, _, hfc⟩ := hx
            exact ⟨fc.name, fc.args, hfc.symm⟩
          · simp only [handle_tool_call] at hx
            rw [List.mem_map] at hx
            obtain ⟨fc, _, hfc⟩ := hx
            exact ⟨fc.name, fc.args, hfc.symm⟩
      | failGroupSend =>
          simp only [handle_tool_call_run] at hx
          rw [List.mem_map] at hx
          obtain ⟨fc, _, hfc⟩ := hx
          exact ⟨fc.name, fc.args, hfc.symm⟩

/-- Whether processing one event raises depends only on the event's
`server_content` presence, never on the tool-call failure mode. -/
lemma processEvent_raised (e : ResponseEvent) (tf : ToolFail) :
    (processEvent e tf).2.2 = (processEvent e ToolFail.noFail).2.2 := by
  unfold processEvent
  cases e.server_content <;> rfl

/-- Each step of a session operation can only keep or clear `is_active`,
never raise it back to true. -/
lemma stepOp_active_mono (s : SessState) (op : SessOp)
    (h : (stepOp s op).is_active = true) : s.is_active = true := by
  cases op with
  | opClose rf => rw [stepOp, close_not_active] at h; exact absurd h (by simp)
  | opSendAudio p sf =>
      rw [stepOp] at h
      unfold send_audio at h
      split at h
      · exact h
      · split at h
        · exact absurd h (by simp)
        · split at h
          · exact absurd h (by simp)
          · exact h
  | opEndOfTurn sf => rw [stepOp, end_of_turn_step_fst] at h; exact h
  | opTextTurn t sf => exact h
  | opRecvEvent e tf =>
      rw [stepOp] at h
      split at h
      · exact h
      · split at h
        · exact absurd h (by simp)
        · exact h

/-! ## Claim theorems -/

/-- Claim C1, counterexample: on a session that completed `connect`, calling
`close` twice performs the upstream release action twice, not once —
`close` never clears `session_manager`, so the second call releases the
handle again.  This refutes the claim that the second call performs no
release action. -/
theorem close_twice_counterexample :
    (close (close connectedState false) false).releaseCount = 2 ∧
    ¬ (close (close connectedState false) false).releaseCount = 1 := by
  decide

/-- Claim C1, amended: `close` called twice raises nothing (both calls
return normally, release failures being caught and logged) and leaves the
session inactive, but the second call repeats the release action whenever a
manager handle exists, because `close` does not clear the handle: after two
calls the release count has grown by two, not one. -/
theorem close_twice_amended (s : SessState) (rf1 rf2 : Bool) :
    (close s rf1).is_active = false ∧
    (close (close s rf1) rf2).is_active = false ∧
    (close (close s rf1) rf2).hasManager = s.hasManager ∧
    (close (close s rf1) rf2).releaseCount =
      s.releaseCount + (if s.hasManager then 2 else 0) := by
  rcases s with ⟨hs, hm, ia, rc⟩
  cases hm <;> simp [close]

/-- Claim C2: for every upstream event, the messages emitted to the client
are exactly the ordered concatenation of the per-field translations —
tool-call, audio, text, input-transcript, output-transcript, turn-complete,
interrupted — each field tested independently; and the synthetic event with
both `output_transcription` and `turn_complete` populated yields exactly the
two messages `ai_transcription` then `turn_complete`. -/
theorem event_translation_order :
    (∀ e : ResponseEvent, (processEvent e ToolFail.noFail).1 = specOrderedMsgs e) ∧
    (processEvent syntheticEvent ToolFail.noFail).1 =
      [OutMsg.ai_transcription "Hello", OutMsg.turn_complete] ∧
    (processEvent syntheticEvent ToolFail.noFail).1.length = 2 := by
  refine ⟨?_, by decide, by decide⟩
  intro e
  cases hsc : e.server_content with
  | none =>
      simp only [specOrderedMsgs, ← toolClientMsgs_noFail, ← audioMsgs_spec, ← textMsgs_spec,
        specInTransOut, specOutTransOut, specTurnCompleteOut, specInterruptedOut,
        processEvent, hsc]
      simp
  | some sc =>
      simp only [specOrderedMsgs, ← toolClientMsgs_noFail, ← audioMsgs_spec, ← textMsgs_spec,
        specInTransOut, specOutTransOut, specTurnCompleteOut, specInterruptedOut,
        processEvent, scMsgs, hsc]
      simp [List.append_assoc]

/-- Claim C3: a failing audio send marks the session inactive and forwards
nothing, while a failing end-of-turn send leaves the state unchanged and
the inbound loop simply continues with the remaining messages. -/
theorem send_failure_asymmetry (s : SessState) (p : String) (bs : List Nat)
    (sf : Bool) (rest : List InMsg)
    (hs : s.hasSession = true) (ha : s.is_active = true)
    (hd : b64decode p = some bs) :
    (send_audio s p true).1.is_active = false ∧
    (send_audio s p true).2 = [] ∧
    (end_of_turn_step s sf).1 = s ∧
    inboundLoop s (InMsg.end_of_turn sf :: rest) =
      ((inboundLoop s rest).1, (end_of_turn_step s sf).2 ++ (inboundLoop s rest).2) := by
  refine ⟨?_, ?_, end_of_turn_step_fst s sf, ?_⟩
  · simp [send_audio, hs, ha, hd]
  · simp [send_audio, hs, ha, hd]
  · simp [inboundLoop, ha, end_of_turn_step_fst]

/-- Claim C3, witness at a concrete active session and payload. -/
theorem send_failure_asymmetry_witness :
    (send_audio connectedState "QUJD" true).1.is_active = false ∧
    (send_audio connectedState "QUJD" true).2 = [] ∧
    (end_of_turn_step connectedState true).1 = connectedState ∧
    inboundLoop connectedState (InMsg.end_of_turn true :: []) =
      ((inboundLoop connectedState []).1,
       (end_of_turn_step connectedState true).2 ++ (inboundLoop connectedState []).2) :=
  send_failure_asymmetry connectedState "QUJD" [65, 66, 67] true [] rfl rfl (by decide)

/-- Claim C4: while the session is inactive (or no upstream session is
stored), `send_audio` is a no-op — it forwards nothing upstream, returns
normally and leaves the state unchanged — and hence any sequence of audio
submissions in that state forwards nothing. -/
theorem inactive_send_noop (s : SessState)
    (h : s.hasSession = false ∨ s.is_active = false) :
    (∀ (p : String) (sf : Bool), send_audio s p sf = (s, [])) ∧
    (∀ ps : List (String × Bool), sendAudioSeq s ps = (s, [])) := by
  have hone : ∀ (p : String) (sf : Bool), send_audio s p sf = (s, []) := by
    intro p sf
    unfold send_audio
    rcases h with h | h <;> simp [h]
  refine ⟨hone, ?_⟩
  intro ps
  induction ps with
  | nil => rfl
  | cons hd tl ih =>
      obtain ⟨p, sf⟩ := hd
      simp [sendAudioSeq, hone p sf, ih]

/-- Claim C4, witness: a session that was deactivated drops a valid chunk
and a two-chunk sequence without any upstream traffic. -/
theorem inactive_send_noop_witness :
    send_audio (SessState.mk true true false 0) "QUJD" false =
      (SessState.mk true true false 0, []) ∧
    sendAudioSeq (SessState.mk true true false 0) [("QUJD", false), ("QQ==", true)] =
      (SessState.mk true true false 0, []) :=
  ⟨(inactive_send_noop (SessState.mk true true false 0) (Or.inr rfl)).1 "QUJD" false,
   (inactive_send_noop (SessState.mk true true false 0) (Or.inr rfl)).2
     [("QUJD", false), ("QQ==", true)]⟩

/-- Claim C5: a batch of N function-call requests yields exactly N
`tool_call` client notifications, each carrying its request's name and
args, followed by exactly one grouped upstream response whose N entries
echo the corresponding request's id and name; and a tool-handling failure
of any mode never changes whether event processing raises, so it never ends
the outbound loop. -/
theorem tool_call_batch (tc : ToolCall) :
    ((handle_tool_call tc).1.length = tc.function_calls.length ∧
     (handle_tool_call tc).1 =
       tc.function_calls.map (fun fc => OutMsg.tool_call fc.name fc.args)) ∧
    (∃ rs : List FunctionResponse,
      (handle_tool_call tc).2 = [UpstreamMsg.toolResponses rs] ∧
      rs.length = tc.function_calls.length ∧
      rs.map FunctionResponse.id = tc.function_calls.map FunctionCall.id ∧
      rs.map FunctionResponse.name = tc.function_calls.map FunctionCall.name) ∧
    (∀ (e : ResponseEvent) (tf : ToolFail),
      (processEvent e tf).2.2 = (processEvent e ToolFail.noFail).2.2) := by
  refine ⟨⟨by simp [handle_tool_call], rfl⟩,
    ⟨tc.function_calls.map (fun fc => FunctionResponse.mk fc.id fc.name "ok" "SILENT"),
      ?_, ?_, ?_, ?_⟩, processEvent_raised⟩
  · rfl
  · simp
  · simp [List.map_map, Function.comp]
  · simp [List.map_map, Function.comp]

/-- Claim C6: however the inbound loop ends — stop request, disconnect,
malformed message, per-message exception, deactivation, or connect failure
before the loop even starts — the supervisor's cleanup performs `close`
exactly once, as the final step, preceded by cancelling the background
outbound task exactly when that task was started. -/
theorem supervisor_cleanup (cf : Option String) (rf : Bool) (inbound : List InMsg) :
    (websocket_endpoint cf rf inbound).cleanup =
      (if (websocket_endpoint cf rf inbound).taskStarted then [CleanupStep.cancelTask]
       else []) ++ [CleanupStep.closeCall] ∧
    List.count CleanupStep.closeCall (websocket_endpoint cf rf inbound).cleanup = 1 ∧
    (websocket_endpoint cf rf inbound).taskCancelled =
      (websocket_endpoint cf rf inbound).taskStarted := by
  cases cf <;> simp [websocket_endpoint, connect]

/-- Claim C7: a failing `connect` leaves the session non-active and
re-raises to its caller; on that path the supervisor sends the client
exactly one `error` message and still closes the session; and on every path
the client's first message is either the `connected` acknowledgment or an
`error` message. -/
theorem connect_failure_handling (s : SessState) (msg : String) (rf : Bool)
    (inbound : List InMsg) :
    connect s (some msg) = Except.error ({ s with is_active := false }, msg) ∧
    (websocket_endpoint (some msg) rf inbound).clientMsgs = [OutMsg.error msg] ∧
    (websocket_endpoint (some msg) rf inbound).finalState.is_active = false ∧
    ∀ cf : Option String,
      (websocket_endpoint cf rf inbound).clientMsgs.head? =
          some (OutMsg.connected "Successfully connected to Gemini") ∨
      ∃ m, (websocket_endpoint cf rf inbound).clientMsgs = [OutMsg.error m] := by
  refine ⟨rfl, by simp [websocket_endpoint, connect], ?_, ?_⟩
  · simp [websocket_endpoint, connect, close_not_active]
  · intro cf
    cases cf with
    | none => left; simp [websocket_endpoint, connect]
    | some m => right; exact ⟨m, by simp [websocket_endpoint, connect]⟩

/-- Claim C8: while the session is active with a stored upstream session, a
valid base64 `audio_chunk` is forwarded as exactly one realtime PCM frame
tagged with the fixed 16000 Hz rate, whose bytes are the base64-decoded
payload, and the session state is unchanged. -/
theorem active_audio_forward (s : SessState) (p : String) (bs : List Nat)
    (hs : s.hasSession = true) (ha : s.is_active = true)
    (hd : b64decode p = some bs) :
    send_audio s p false = (s, [UpstreamMsg.realtimeAudio bs audioMime]) ∧
    (send_audio s p false).2.length = 1 ∧
    audioMime = "audio/pcm;rate=16000" ∧
    SAMPLE_RATE = 16000 := by
  have hsend : send_audio s p false = (s, [UpstreamMsg.realtimeAudio bs audioMime]) := by
    simp [send_audio, hs, ha, hd]
  exact ⟨hsend, by simp [hsend], by decide, rfl⟩

/-- Claim C8, witness: a concrete three-byte payload is forwarded intact at
16000 Hz. -/
theorem active_audio_forward_witness :
    send_audio connectedState "QUJD" false =
      (connectedState, [UpstreamMsg.realtimeAudio [65, 66, 67] audioMime]) ∧
    (send_audio connectedState "QUJD" false).2.length = 1 ∧
    audioMime = "audio/pcm;rate=16000" ∧
    SAMPLE_RATE = 16000 :=
  active_audio_forward connectedState "QUJD" [65, 66, 67] rfl rfl (by decide)

/-- Claim C9: over every sequence of session operations, the `active` flag
moves one way only — if it is true after running a sequence it was true
before, so no operation ever raises it back — and `close` always drives and
keeps it false, making repeated deactivation idempotent. -/
theorem active_flag_monotone :
    (∀ (s : SessState) (ops : List SessOp),
      (runOps s ops).is_active = true → s.is_active = true) ∧
    (∀ (s : SessState) (rf : Bool), (close s rf).is_active = false) := by
  refine ⟨?_, close_not_active⟩
  intro s ops
  induction ops generalizing s with
  | nil => exact fun h => h
  | cons op rest ih =>
      intro h
      exact stepOp_active_mono s op (ih (stepOp s op) h)

/-- Claim C9, witness: a deactivating run observed at concrete inputs. -/
theorem active_flag_monotone_witness :
    connectedState.is_active = true ∧
    (close (SessState.mk true true false 3) true).is_active = false :=
  ⟨active_flag_monotone.1 connectedState
      [SessOp.opEndOfTurn true, SessOp.opTextTurn "hi" true] (by decide),
   active_flag_monotone.2 (SessState.mk true true false 3) true⟩

/-- Claim C10: an upstream event whose `server_content` is absent makes the
translation raise when the transcription fields are dereferenced: the
tool-call, audio and text messages already sent are kept, no turn-complete
or interrupted message is ever emitted for that event, and the receive loop
deactivates the session and discards the remaining events of the turn. -/
theorem missing_server_content_crash (e : ResponseEvent) (tf : ToolFail)
    (s : SessState) (rest : List ResponseEvent)
    (hsc : e.server_content = none) (ha : s.is_active = true) :
    (processEvent e tf).2.2 = true ∧
    (processEvent e tf).1 = toolClientMsgs e tf ++ audioMsgs e ++ textMsgs e ∧
    OutMsg.turn_complete ∉ (processEvent e tf).1 ∧
    OutMsg.interrupted ∉ (processEvent e tf).1 ∧
    receiveTurn s (e :: rest) =
      ({ s with is_active := false },
       (processEvent e ToolFail.noFail).1, (processEvent e ToolFail.noFail).2.1) := by
  have hmsgs : (processEvent e tf).1 = toolClientMsgs e tf ++ audioMsgs e ++ textMsgs e := by
    simp [processEvent, hsc]
  have hshape : ∀ x : OutMsg, x ∈ (processEvent e tf).1 →
      (∃ n a, x = OutMsg.tool_call n a) ∨ (∃ d, x = OutMsg.audio_response d) ∨
      (∃ t, x = OutMsg.transcription t) := by
    intro x hx
    rw [hmsgs] at hx
    rcases List.mem_append.mp hx with hx2 | hx2
    · rcases List.mem_append.mp hx2 with hx3 | hx3
      · exact Or.inl (toolClientMsgs_shape e tf x hx3)
      · refine Or.inr (Or.inl ?_)
        unfold audioMsgs at hx3
        cases hd : e.data with
        | none => rw [hd] at hx3; exact absurd hx3 (List.not_mem_nil x)
        | some bs =>
            rw [hd] at hx3
            by_cases hb : bs.isEmpty
            · simp [hb] at hx3
            · simp [hb] at hx3
              exact ⟨b64encode bs, hx3⟩
    · refine Or.inr (Or.inr ?_)
      unfold textMsgs at hx2
      cases ht : e.text with
      | none => rw [ht] at hx2; exact absurd hx2 (List.not_mem_nil x)
      | some t =>
          rw [ht] at hx2
          by_cases h0 : t = ""
          · simp [h0] at hx2
          · simp [h0] at hx2
            exact ⟨t, hx2⟩
  have hraised : (processEvent e tf).2.2 = true := by simp [processEvent, hsc]
  have hraised0 : (processEvent e ToolFail.noFail).2.2 = true := by simp [processEvent, hsc]
  refine ⟨hraised, hmsgs, ?_, ?_, ?_⟩
  · intro hmem
    rcases hshape _ hmem with ⟨n, a, h⟩ | ⟨d, h⟩ | ⟨t, h⟩ <;> simp at h
  · intro hmem
    rcases hshape _ hmem with ⟨n, a, h⟩ | ⟨d, h⟩ | ⟨t, h⟩ <;> simp at h
  · simp [receiveTurn, ha, hraised0]

/-- Claim C10, witness: a concrete event carrying audio and text but no
`server_content`, processed on a concrete active session. -/
theorem missing_server_content_crash_witness :
    (processEvent (ResponseEvent.mk none (some [1]) (some "x") none) ToolFail.noFail).2.2 =
      true ∧
    (processEvent (ResponseEvent.mk none (some [1]) (some "x") none) ToolFail.noFail).1 =
      toolClientMsgs (ResponseEvent.mk none (some [1]) (some "x") none) ToolFail.noFail ++
        audioMsgs (ResponseEvent.mk none (some [1]) (some "x") none) ++
        textMsgs (ResponseEvent.mk none (some [1]) (some "x") none) ∧
    OutMsg.turn_complete ∉
      (processEvent (ResponseEvent.mk none (some [1]) (some "x") none) ToolFail.noFail).1 ∧
    OutMsg.interrupted ∉
      (processEvent (ResponseEvent.mk none (some [1]) (some "x") none) ToolFail.noFail).1 ∧
    receiveTurn (SessState.mk true true true 5)
        [ResponseEvent.mk none (some [1]) (some "x") none] =
      (SessState.mk true true false 5,
       (processEvent (ResponseEvent.mk none (some [1]) (some "x") none) ToolFail.noFail).1,
       (processEvent (ResponseEvent.mk none (some [1]) (some "x") none) ToolFail.noFail).2.1) :=
  missing_server_content_crash (ResponseEvent.mk none (some [1]) (some "x") none)
    ToolFail.noFail (SessState.mk true true true 5) [] rfl rfl

end GeminiLive
